import Mathlib

/-!
Verification of the client-side login/session core of the Login-Page
repository, shallowly embedded in Lean 4.

JavaScript strings are modelled as `List Char`.  The four components are
embedded from the source files:

* `validateIranianPhone` / `normalizeIranianPhone` from `src/lib/validation.ts`
  (patterns from `PHONE_PATTERNS` in `src/lib/constants.ts`);
* `saveUserToStorage` / `getUserFromStorage` from `src/lib/auth.ts`, with
  `localStorage` modelled as an explicit state record;
* `fetchRandomUser` from `src/lib/api.ts`, with the network response as an
  explicit input;
* the `LoginForm` React component from `src/components/login-form.tsx`, as a
  state-transition function.  React `useState` setters are asynchronous and
  handler closures read the state snapshot from the render in which the
  handler was created, so a handler run is modelled as a function from the
  snapshot state (all reads) to the post-run state (last write per field wins).
-/

namespace LoginPage

/-! ## JavaScript string primitives -/

/-- Characters removed by JavaScript `String.prototype.trim`:
the WhiteSpace and LineTerminator productions (tab, LF, VT, FF, CR, space,
NBSP, the Unicode space separators, LS, PS, narrow/medium spaces, ideographic
space and the BOM). -/
def isJsWhitespace (c : Char) : Bool :=
  c.toNat ∈ [9, 10, 11, 12, 13, 32, 160, 5760,
    8192, 8193, 8194, 8195, 8196, 8197, 8198, 8199, 8200, 8201, 8202,
    8232, 8233, 8239, 8287, 12288, 65279]

/-- JavaScript `s.trim()`: strip leading and trailing whitespace. -/
def jsTrim (s : List Char) : List Char :=
  ((s.dropWhile isJsWhitespace).reverse.dropWhile isJsWhitespace).reverse

/-- JavaScript `s.startsWith(pat)` (second argument is the pattern). -/
def listStartsWith : List Char → List Char → Bool
  | _, [] => true
  | [], _ :: _ => false
  | a :: s, b :: p => a == b && listStartsWith s p

/-! ## PhoneValidator (`src/lib/validation.ts`, `PHONE_PATTERNS`) -/

/-- The `\d` character class: code points U+0030 to U+0039. -/
def isAsciiDigit (c : Char) : Bool :=
  48 ≤ c.toNat && c.toNat ≤ 57

/-- The regex piece `\d{9}` anchored to the end: exactly nine decimal digits. -/
def nineDigits (s : List Char) : Bool :=
  s.length == 9 && s.all isAsciiDigit

/-- Embeds `PHONE_PATTERNS.STANDARD`, the regex `^09\d{9}$`. -/
def matchStandard : List Char → Bool
  | c1 :: c2 :: rest => c1 == '0' && c2 == '9' && nineDigits rest
  | _ => false

/-- Embeds `PHONE_PATTERNS.INTERNATIONAL`, the regex `^\+989\d{9}$`. -/
def matchInternational : List Char → Bool
  | c1 :: c2 :: c3 :: c4 :: rest =>
      c1 == '+' && c2 == '9' && c3 == '8' && c4 == '9' && nineDigits rest
  | _ => false

/-- Embeds `PHONE_PATTERNS.COUNTRY_CODE`, the regex `^00989\d{9}$`. -/
def matchCountryCode : List Char → Bool
  | c1 :: c2 :: c3 :: c4 :: c5 :: rest =>
      c1 == '0' && c2 == '0' && c3 == '9' && c4 == '8' && c5 == '9' &&
        nineDigits rest
  | _ => false

/-- Embeds `validateIranianPhone` from `src/lib/validation.ts`: the `!phone` guard
rejects the empty string (the `typeof` guard is vacuous for strings), then the
trimmed input is tested against the three `PHONE_PATTERNS`. -/
def validateIranianPhone (phone : List Char) : Bool :=
  if phone.isEmpty then
    false
  else
    let cleanPhone := jsTrim phone
    matchStandard cleanPhone || matchInternational cleanPhone ||
      matchCountryCode cleanPhone

/-- The pattern argument of `cleanPhone.startsWith('+989')`. -/
def patPlus989 : List Char := ['+', '9', '8', '9']

/-- The pattern argument of `cleanPhone.startsWith('00989')`. -/
def pat00989 : List Char := ['0', '0', '9', '8', '9']

/-- Embeds `normalizeIranianPhone` from `src/lib/validation.ts`: invalid input is
returned unchanged; valid input is trimmed and the international prefixes
`+98` / `0098` are replaced by a single leading `0`. -/
def normalizeIranianPhone (phone : List Char) : List Char :=
  if validateIranianPhone phone then
    let cleanPhone := jsTrim phone
    if listStartsWith cleanPhone patPlus989 then
      '0' :: cleanPhone.drop 3
    else if listStartsWith cleanPhone pat00989 then
      '0' :: cleanPhone.drop 4
    else
      cleanPhone
  else
    phone

/-- How many of the three recognized shapes a string matches. -/
def shapeCount (s : List Char) : Nat :=
  (if matchStandard s then 1 else 0) +
    (if matchInternational s then 1 else 0) +
    (if matchCountryCode s then 1 else 0)

/-! ### Phone validation lemmas -/

theorem matchStandard_shape {s : List Char} (h : matchStandard s = true) :
    ∃ ds, s = '0' :: '9' :: ds ∧ nineDigits ds = true := by
  match s with
  | [] => simp [matchStandard] at h
  | [c1] => simp [matchStandard] at h
  | c1 :: c2 :: rest =>
    simp only [matchStandard, Bool.and_eq_true, beq_iff_eq] at h
    obtain ⟨⟨h1, h2⟩, h3⟩ := h
    exact ⟨rest, by simp [h1, h2], h3⟩

theorem matchInternational_shape {s : List Char}
    (h : matchInternational s = true) :
    ∃ ds, s = '+' :: '9' :: '8' :: '9' :: ds ∧ nineDigits ds = true := by
  match s with
  | [] => simp [matchInternational] at h
  | [c1] => simp [matchInternational] at h
  | [c1, c2] => simp [matchInternational] at h
  | [c1, c2, c3] => simp [matchInternational] at h
  | c1 :: c2 :: c3 :: c4 :: rest =>
    simp only [matchInternational, Bool.and_eq_true, beq_iff_eq] at h
    obtain ⟨⟨⟨⟨h1, h2⟩, h3⟩, h4⟩, h5⟩ := h
    exact ⟨rest, by simp [h1, h2, h3, h4], h5⟩

theorem matchCountryCode_shape {s : List Char}
    (h : matchCountryCode s = true) :
    ∃ ds, s = '0' :: '0' :: '9' :: '8' :: '9' :: ds ∧ nineDigits ds = true := by
  match s with
  | [] => simp [matchCountryCode] at h
  | [c1] => simp [matchCountryCode] at h
  | [c1, c2] => simp [matchCountryCode] at h
  | [c1, c2, c3] => simp [matchCountryCode] at h
  | [c1, c2, c3, c4] => simp [matchCountryCode] at h
  | c1 :: c2 :: c3 :: c4 :: c5 :: rest =>
    simp only [matchCountryCode, Bool.and_eq_true, beq_iff_eq] at h
    obtain ⟨⟨⟨⟨⟨h1, h2⟩, h3⟩, h4⟩, h5⟩, h6⟩ := h
    exact ⟨rest, by simp [h1, h2, h3, h4, h5], h6⟩

theorem nineDigits_iff {s : List Char} :
    nineDigits s = true ↔ s.length = 9 ∧ ∀ c ∈ s, isAsciiDigit c = true := by
  simp [nineDigits]

theorem digit_not_whitespace {c : Char} (h : isAsciiDigit c = true) :
    isJsWhitespace c = false := by
  simp only [isAsciiDigit, Bool.and_eq_true, decide_eq_true_eq] at h
  simp only [isJsWhitespace, List.mem_cons, List.not_mem_nil, or_false,
    decide_eq_false_iff_not]
  omega

theorem intl_std_disjoint {s : List Char} (h : matchInternational s = true) :
    matchStandard s = false := by
  obtain ⟨ds, rfl, -⟩ := matchInternational_shape h
  simp [matchStandard]

theorem cc_std_disjoint {s : List Char} (h : matchCountryCode s = true) :
    matchStandard s = false := by
  obtain ⟨ds, rfl, -⟩ := matchCountryCode_shape h
  simp [matchStandard]

theorem cc_intl_disjoint {s : List Char} (h : matchCountryCode s = true) :
    matchInternational s = false := by
  obtain ⟨ds, rfl, -⟩ := matchCountryCode_shape h
  simp [matchInternational]

theorem std_intl_disjoint {s : List Char} (h : matchStandard s = true) :
    matchInternational s = false := by
  obtain ⟨ds, rfl, -⟩ := matchStandard_shape h
  match ds with
  | [] => rfl
  | [d] => rfl
  | d1 :: d2 :: t => simp [matchInternational]

theorem std_cc_disjoint {s : List Char} (h : matchStandard s = true) :
    matchCountryCode s = false := by
  obtain ⟨ds, rfl, -⟩ := matchStandard_shape h
  match ds with
  | [] => rfl
  | [d] => rfl
  | [d1, d2] => rfl
  | d1 :: d2 :: d3 :: t => simp [matchCountryCode]

theorem intl_cc_disjoint {s : List Char} (h : matchInternational s = true) :
    matchCountryCode s = false := by
  obtain ⟨ds, rfl, -⟩ := matchInternational_shape h
  match ds with
  | [] => rfl
  | d :: t => simp [matchCountryCode]

theorem validate_iff (x : List Char) :
    validateIranianPhone x = true ↔
      matchStandard (jsTrim x) = true ∨ matchInternational (jsTrim x) = true ∨
        matchCountryCode (jsTrim x) = true := by
  cases x with
  | nil => simp [validateIranianPhone, jsTrim, matchStandard,
      matchInternational, matchCountryCode, List.dropWhile]
  | cons c t => simp [validateIranianPhone, or_assoc]

theorem jsTrim_canonical {ds : List Char}
    (hd : ∀ c ∈ ds, isAsciiDigit c = true) :
    jsTrim ('0' :: '9' :: ds) = '0' :: '9' :: ds := by
  have h0 : isJsWhitespace '0' = false := by decide
  have h9 : isJsWhitespace '9' = false := by decide
  have hfront :
      List.dropWhile isJsWhitespace ('0' :: '9' :: ds) = '0' :: '9' :: ds := by
    simp [List.dropWhile, h0]
  have hback :
      List.dropWhile isJsWhitespace ('0' :: '9' :: ds).reverse
        = ('0' :: '9' :: ds).reverse := by
    cases hr : ds.reverse with
    | nil =>
      have hnil : ds = [] := by
        have := congrArg List.reverse hr
        simpa using this
      subst hnil
      simp [List.dropWhile, h9]
    | cons d t =>
      have hdmem : d ∈ ds := by
        have : d ∈ ds.reverse := by
          rw [hr]; exact List.mem_cons_self d t
        simpa using this
      have hdws : isJsWhitespace d = false := digit_not_whitespace (hd d hdmem)
      have hrw : ('0' :: '9' :: ds).reverse = d :: (t ++ ['9', '0']) := by
        simp [hr]
      rw [hrw]
      simp [List.dropWhile, hdws]
  unfold jsTrim
  rw [hfront, hback, List.reverse_reverse]

theorem normalize_valid {x : List Char} (h : validateIranianPhone x = true) :
    ∃ ds, nineDigits ds = true ∧
      normalizeIranianPhone x = '0' :: '9' :: ds ∧
      ds = (jsTrim x).drop ((jsTrim x).length - 9) := by
  rcases (validate_iff x).mp h with hm | hm | hm
  · obtain ⟨ds, hs, hn⟩ := matchStandard_shape hm
    refine ⟨ds, hn, ?_, ?_⟩
    · simp only [normalizeIranianPhone, h, if_true]
      rw [hs]
      simp [listStartsWith, patPlus989, pat00989]
    · have hl : ds.length = 9 := (nineDigits_iff.mp hn).1
      rw [hs]
      simp [hl]
  · obtain ⟨ds, hs, hn⟩ := matchInternational_shape hm
    refine ⟨ds, hn, ?_, ?_⟩
    · simp only [normalizeIranianPhone, h, if_true]
      rw [hs]
      simp [listStartsWith, patPlus989]
    · have hl : ds.length = 9 := (nineDigits_iff.mp hn).1
      rw [hs]
      simp [hl]
  · obtain ⟨ds, hs, hn⟩ := matchCountryCode_shape hm
    refine ⟨ds, hn, ?_, ?_⟩
    · simp only [normalizeIranianPhone, h, if_true]
      rw [hs]
      simp [listStartsWith, patPlus989, pat00989]
    · have hl : ds.length = 9 := (nineDigits_iff.mp hn).1
      rw [hs]
      simp [hl]

theorem validate_canonical {ds : List Char} (hn : nineDigits ds = true) :
    validateIranianPhone ('0' :: '9' :: ds) = true := by
  have hd : ∀ c ∈ ds, isAsciiDigit c = true := (nineDigits_iff.mp hn).2
  rw [validate_iff, jsTrim_canonical hd]
  exact Or.inl (by simp [matchStandard, hn])

theorem normalize_canonical {ds : List Char} (hn : nineDigits ds = true) :
    normalizeIranianPhone ('0' :: '9' :: ds) = '0' :: '9' :: ds := by
  have hd : ∀ c ∈ ds, isAsciiDigit c = true := (nineDigits_iff.mp hn).2
  simp only [normalizeIranianPhone, validate_canonical hn, if_true]
  rw [jsTrim_canonical hd]
  simp [listStartsWith, patPlus989, pat00989]

/-- Example input for concrete evaluations: a local-shape number surrounded
by a leading space. -/
def spacedLocalPhone : List Char := " 09123456789".data

/-- Example international-shape input. -/
def intlPhone : List Char := "+989123456789".data

/-- C5: `validateIranianPhone` never throws (it is a total boolean
function), and it returns `true` exactly when the trimmed input matches
exactly one of the three recognized shapes `^09\d{9}$`, `^\+989\d{9}$`,
`^00989\d{9}$` — in particular the empty string and every other string
yield `false`. -/
theorem c5_validate_exactly_one_shape (s : List Char) :
    validateIranianPhone s = true ↔ shapeCount (jsTrim s) = 1 := by
  rw [validate_iff]
  constructor
  · rintro (h | h | h)
    · simp [shapeCount, h, std_intl_disjoint h, std_cc_disjoint h]
    · simp [shapeCount, h, intl_std_disjoint h, intl_cc_disjoint h]
    · simp [shapeCount, h, cc_std_disjoint h, cc_intl_disjoint h]
  · intro h
    cases h1 : matchStandard (jsTrim s) with
    | true => exact Or.inl rfl
    | false =>
      cases h2 : matchInternational (jsTrim s) with
      | true => exact Or.inr (Or.inl rfl)
      | false =>
        cases h3 : matchCountryCode (jsTrim s) with
        | true => exact Or.inr (Or.inr rfl)
        | false => simp [shapeCount, h1, h2, h3] at h

/-- C6 (counterexample): the claim says local-shape input optionally
surrounded by whitespace is returned unchanged by `normalizeIranianPhone`;
but `" 09123456789"` is valid, is the local shape surrounded by whitespace,
and is returned trimmed, i.e. changed. -/
theorem c6_counterexample :
    validateIranianPhone spacedLocalPhone = true ∧
      matchStandard (jsTrim spacedLocalPhone) = true ∧
      normalizeIranianPhone spacedLocalPhone ≠ spacedLocalPhone := by
  decide

/-- C6 (amended): an invalid input is returned unchanged; a valid input is
normalized to the canonical local form — `09` followed by the trimmed
input's last nine (subscriber) digits — so valid input is returned
unchanged only when it is already trimmed. -/
theorem c6_normalize_amended (x : List Char) :
    normalizeIranianPhone x =
      if validateIranianPhone x then
        '0' :: '9' :: (jsTrim x).drop ((jsTrim x).length - 9)
      else x := by
  cases hv : validateIranianPhone x with
  | false => simp [normalizeIranianPhone, hv]
  | true =>
    obtain ⟨ds, -, heq, hds⟩ := normalize_valid hv
    rw [heq, if_pos rfl, ← hds]

/-- C7: `normalizeIranianPhone` is idempotent on valid input. -/
theorem c7_normalize_idempotent (x : List Char)
    (h : validateIranianPhone x = true) :
    normalizeIranianPhone (normalizeIranianPhone x) = normalizeIranianPhone x := by
  obtain ⟨ds, hn, heq, -⟩ := normalize_valid h
  rw [heq, normalize_canonical hn]

/-- C7 witness: the idempotence theorem applied to a concrete valid
international-shape input. -/
theorem c7_normalize_idempotent_witness :
    validateIranianPhone intlPhone = true ∧
      normalizeIranianPhone (normalizeIranianPhone intlPhone) =
        normalizeIranianPhone intlPhone :=
  ⟨by decide, c7_normalize_idempotent intlPhone (by decide)⟩

/-! ## JSON values and JavaScript object semantics

Runtime values flowing through `auth.ts` and `api.ts` are JSON-shaped (they
come from `JSON.parse` or are about to go through `JSON.stringify`); the TS
type annotations are not enforced at runtime, so the embeddings take an
arbitrary `JsonVal`.  An absent object key models both a missing field and a
field holding `undefined`. -/

inductive JsonVal where
  | jnull : JsonVal
  | jbool : Bool → JsonVal
  | jnum : Int → JsonVal
  | jstr : List Char → JsonVal
  | jarr : List JsonVal → JsonVal
  | jobj : List (List Char × JsonVal) → JsonVal

/-- JavaScript truthiness of a JSON-shaped value (`null`, `false`, `0` and
`""` are falsy; objects and arrays are always truthy). -/
def jsTruthy : JsonVal → Bool
  | .jnull => false
  | .jbool b => b
  | .jnum n => n != 0
  | .jstr s => !s.isEmpty
  | .jarr _ => true
  | .jobj _ => true

/-- Property access `v.k` on a non-null value: `some` is a present field,
`none` is `undefined` (missing key, or access on a primitive). -/
def jsGet : JsonVal → List Char → Option JsonVal
  | .jobj fields, k => fields.lookup k
  | _, _ => none

/-- Property access on a possibly-`undefined` value (the value is only ever
accessed after a truthiness guard in the embedded code, so `none` here
stands for `undefined` field results, not for a thrown `TypeError`). -/
def jsGetOpt : Option JsonVal → List Char → Option JsonVal
  | some v, k => jsGet v k
  | none, _ => none

/-- Truthiness of a possibly-`undefined` value. -/
def jsTruthyOpt : Option JsonVal → Bool
  | some v => jsTruthy v
  | none => false

/-- The test `typeof v === 'string'` for a possibly-`undefined` value. -/
def isStringVal : Option JsonVal → Bool
  | some (.jstr _) => true
  | _ => false

/-- Object keys used by the embedded code. -/
def keyName : List Char := "name".data

def keyFirst : List Char := "first".data

def keyLast : List Char := "last".data

def keyEmail : List Char := "email".data

def keyPicture : List Char := "picture".data

def keyLarge : List Char := "large".data

def keyMedium : List Char := "medium".data

def keyThumbnail : List Char := "thumbnail".data

def keyResults : List Char := "results".data

/-- The UserRecord invariant as checked by `getUserFromStorage`
(`src/lib/auth.ts` lines 71–79): the record, `name` and `picture` are truthy
and the six leaf fields are strings. -/
def isValidUserRecord (u : JsonVal) : Bool :=
  jsTruthy u &&
    jsTruthyOpt (jsGet u keyName) &&
    isStringVal (jsGetOpt (jsGet u keyName) keyFirst) &&
    isStringVal (jsGetOpt (jsGet u keyName) keyLast) &&
    isStringVal (jsGet u keyEmail) &&
    jsTruthyOpt (jsGet u keyPicture) &&
    isStringVal (jsGetOpt (jsGet u keyPicture) keyLarge) &&
    isStringVal (jsGetOpt (jsGet u keyPicture) keyMedium) &&
    isStringVal (jsGetOpt (jsGet u keyPicture) keyThumbnail)

/-! ## SessionStore (`src/lib/auth.ts`)

The `localStorage` slot under `STORAGE_KEYS.USER_DATA` holds, when present,
either bytes produced by `JSON.stringify` of some value (`jsonText v`, which
`JSON.parse` returns unchanged), the empty string (falsy on read), or bytes
that do not parse (`garbage`, on which `JSON.parse` throws). -/

inductive StoredContent where
  | emptyStr : StoredContent
  | garbage : StoredContent
  | jsonText : JsonVal → StoredContent

/-- Whether stored bytes fail to parse or parse to an invariant-violating
value. -/
def contentInvalid : StoredContent → Bool
  | .emptyStr => true
  | .garbage => true
  | .jsonText v => !isValidUserRecord v

def isEmptyContent : StoredContent → Bool
  | .emptyStr => true
  | _ => false

/-- The browser storage environment: availability of `localStorage`,
whether a write would throw `QuotaExceededError`, and the slot under the
well-known key. -/
structure BrowserStorage where
  avail : Bool
  quotaFull : Bool
  slot : Option StoredContent

/-- Error messages thrown by `saveUserToStorage`. -/
def msgStorageUnavailable : List Char :=
  "Browser storage is not available. Please enable localStorage and try again.".data

def msgInvalidUserData : List Char :=
  "Invalid user data: missing required fields".data

def msgQuotaExceeded : List Char :=
  "Storage quota exceeded. Please clear some browser data and try again.".data

/-- Embeds `saveUserToStorage` from `src/lib/auth.ts` (production mode, so the
verify-read-back after a successful write runs; on a correct `localStorage`
it reads back exactly the written serialization, so it passes).  The checks
run in source order: storage availability, then the truthiness check on
`user`, `user.name`, `user.email`, `user.picture`, then the write, which
throws a quota error when the quota is exhausted.  Thrown errors are
re-thrown by the `catch` block with the quoted messages. -/
def saveUserToStorage (user : JsonVal) (st : BrowserStorage) :
    Except (List Char) BrowserStorage :=
  if !st.avail then
    .error msgStorageUnavailable
  else if !jsTruthy user || !jsTruthyOpt (jsGet user keyName) ||
      !jsTruthyOpt (jsGet user keyEmail) ||
      !jsTruthyOpt (jsGet user keyPicture) then
    .error msgInvalidUserData
  else if st.quotaFull then
    .error msgQuotaExceeded
  else
    .ok { st with slot := some (.jsonText user) }

/-- Embeds `getUserFromStorage` from `src/lib/auth.ts`.  It never throws: every
failure path returns `none`.  `getItem` of an absent key is `null` and of the
empty string is falsy, so both return `null` early without clearing; a parse
failure lands in the `catch` block which removes the key; a parsed value
failing the UserRecord invariant is cleared explicitly. -/
def getUserFromStorage (st : BrowserStorage) :
    Option JsonVal × BrowserStorage :=
  if !st.avail then
    (none, st)
  else
    match st.slot with
    | none => (none, st)
    | some .emptyStr => (none, st)
    | some .garbage => (none, { st with slot := none })
    | some (.jsonText user) =>
        if isValidUserRecord user then
          (some user, st)
        else
          (none, { st with slot := none })

/-- The truthiness precondition actually enforced by `saveUserToStorage`
(`src/lib/auth.ts` line 17): only `user`, `user.name`, `user.email`,
`user.picture` are checked, not the six leaf fields. -/
def requiredFieldsTruthy (u : JsonVal) : Bool :=
  jsTruthy u && jsTruthyOpt (jsGet u keyName) &&
    jsTruthyOpt (jsGet u keyEmail) && jsTruthyOpt (jsGet u keyPicture)

theorem save_cond_eq (u : JsonVal) :
    (!jsTruthy u || !jsTruthyOpt (jsGet u keyName) ||
        !jsTruthyOpt (jsGet u keyEmail) ||
        !jsTruthyOpt (jsGet u keyPicture)) = !requiredFieldsTruthy u := by
  simp only [requiredFieldsTruthy]
  cases jsTruthy u <;> cases jsTruthyOpt (jsGet u keyName) <;>
    cases jsTruthyOpt (jsGet u keyEmail) <;>
    cases jsTruthyOpt (jsGet u keyPicture) <;> rfl

/-! ### Sample values for concrete evaluations -/

def sampleText : List Char := "x".data

/-- A record passing the truthiness check of `saveUserToStorage` while
violating the six-leaf UserRecord invariant: `name` and `picture` are truthy
objects with no fields at all. -/
def partialUser : JsonVal :=
  .jobj [(keyName, .jobj []), (keyEmail, .jstr sampleText),
    (keyPicture, .jobj [])]

/-- A record satisfying the full UserRecord invariant. -/
def sampleUser : JsonVal :=
  .jobj [(keyName, .jobj [(keyFirst, .jstr sampleText),
      (keyLast, .jstr sampleText)]),
    (keyEmail, .jstr sampleText),
    (keyPicture, .jobj [(keyLarge, .jstr sampleText),
      (keyMedium, .jstr sampleText), (keyThumbnail, .jstr sampleText)])]

def freshStorage : BrowserStorage := ⟨true, false, none⟩

def emptySlotStorage : BrowserStorage := ⟨true, false, some .emptyStr⟩

def garbageStorage : BrowserStorage := ⟨true, false, some .garbage⟩

def savedSampleStorage : BrowserStorage :=
  ⟨true, false, some (.jsonText sampleUser)⟩

/-- C3 (counterexample): a record whose `name` and `picture` are truthy but
carry none of the six leaf fields fails the UserRecord invariant, yet
`saveUserToStorage` accepts it and persists it — the claim that every
invariant-violating record is rejected and never persisted is false. -/
theorem c3_counterexample :
    isValidUserRecord partialUser = false ∧
      saveUserToStorage partialUser freshStorage =
        .ok { freshStorage with slot := some (.jsonText partialUser) } :=
  ⟨rfl, rfl⟩

/-- C3 (amended): with storage available and quota free,
`saveUserToStorage` rejects — with the Storage-kind message
`"Invalid user data: missing required fields"` — exactly the records whose
`user`, `user.name`, `user.email` or `user.picture` is falsy, leaving the
slot untouched; a record passing that shallow check is persisted even when
it violates the six-leaf invariant, but `getUserFromStorage` then refuses to
surface it (it clears the slot and returns null). -/
theorem c3_save_shallow_check (u : JsonVal) (st : BrowserStorage)
    (h1 : st.avail = true) (h2 : st.quotaFull = false) :
    (requiredFieldsTruthy u = false →
      saveUserToStorage u st = .error msgInvalidUserData) ∧
    (requiredFieldsTruthy u = true →
      saveUserToStorage u st = .ok { st with slot := some (.jsonText u) } ∧
      (isValidUserRecord u = false →
        (getUserFromStorage { st with slot := some (.jsonText u) }).1 = none ∧
        (getUserFromStorage { st with slot := some (.jsonText u) }).2.slot
          = none)) := by
  constructor
  · intro h
    simp [saveUserToStorage, h1, save_cond_eq, h]
  · intro h
    constructor
    · simp [saveUserToStorage, h1, h2, save_cond_eq, h]
    · intro hinv
      constructor <;> simp [getUserFromStorage, h1, hinv]

/-- C3 witness: the amended theorem applied to the concrete
invariant-violating record accepted by `saveUserToStorage`. -/
theorem c3_save_shallow_check_witness :
    saveUserToStorage partialUser freshStorage =
        .ok { freshStorage with slot := some (.jsonText partialUser) } ∧
      (getUserFromStorage
          { freshStorage with slot := some (.jsonText partialUser) }).1
        = none :=
  ⟨((c3_save_shallow_check partialUser freshStorage rfl rfl).2 rfl).1,
    (((c3_save_shallow_check partialUser freshStorage rfl rfl).2 rfl).2
      rfl).1⟩

/-- C4 (counterexample): when the stored bytes are the empty string —
content that fails to parse — `getItem` returns a falsy value, so
`getUserFromStorage` returns null early and does **not** delete the stored
record, contradicting the claim that every non-parsing content is deleted
as a side effect. -/
theorem c4_counterexample :
    contentInvalid .emptyStr = true ∧
      (getUserFromStorage emptySlotStorage).1 = none ∧
      (getUserFromStorage emptySlotStorage).2.slot.isSome = true :=
  ⟨rfl, rfl, rfl⟩

/-- C4 (amended): `getUserFromStorage` never throws (it is a total function
into `Option JsonVal × BrowserStorage`); on stored content that fails to
parse or violates the invariant it returns null, deletes the record unless
the content is the empty string (which `getItem` reports as falsy, so it is
treated as absence and left in place), and a subsequent load also returns
null — the corrupt record never surfaces. -/
theorem c4_load_selfheal (st : BrowserStorage) (c : StoredContent)
    (h1 : st.avail = true) (h2 : st.slot = some c)
    (h3 : contentInvalid c = true) :
    (getUserFromStorage st).1 = none ∧
      (getUserFromStorage st).2.slot =
        (if isEmptyContent c then some c else none) ∧
      (getUserFromStorage (getUserFromStorage st).2).1 = none := by
  cases c with
  | emptyStr =>
    refine ⟨?_, ?_, ?_⟩ <;> simp [getUserFromStorage, h1, h2, isEmptyContent]
  | garbage =>
    refine ⟨?_, ?_, ?_⟩ <;> simp [getUserFromStorage, h1, h2, isEmptyContent]
  | jsonText v =>
    have hv : isValidUserRecord v = false := by
      simpa [contentInvalid] using h3
    refine ⟨?_, ?_, ?_⟩ <;>
      simp [getUserFromStorage, h1, h2, hv, isEmptyContent]

/-- C4 witness: the amended theorem applied to a storage slot holding
non-parsing bytes. -/
theorem c4_load_selfheal_witness :
    (getUserFromStorage garbageStorage).1 = none ∧
      (getUserFromStorage garbageStorage).2.slot =
        (if isEmptyContent .garbage then some .garbage else none) ∧
      (getUserFromStorage (getUserFromStorage garbageStorage).2).1 = none :=
  c4_load_selfheal garbageStorage .garbage rfl rfl rfl

/-- C8: round-trip — for a record satisfying the UserRecord invariant, if
`saveUserToStorage` succeeds then an immediate `getUserFromStorage` returns
exactly that record and leaves the storage unchanged. -/
theorem c8_save_load_roundtrip (u : JsonVal) (st st2 : BrowserStorage)
    (h1 : isValidUserRecord u = true)
    (h2 : saveUserToStorage u st = .ok st2) :
    (getUserFromStorage st2).1 = some u ∧ (getUserFromStorage st2).2 = st2 := by
  simp only [saveUserToStorage] at h2
  split at h2
  · exact Except.noConfusion h2
  · split at h2
    · exact Except.noConfusion h2
    · split at h2
      · exact Except.noConfusion h2
      · rename_i hna _ _
        injection h2 with h3
        subst h3
        have ha : st.avail = true := by
          cases h : st.avail with
          | true => rfl
          | false => exact absurd h (by simpa using hna)
        constructor <;> simp [getUserFromStorage, ha, h1]

/-- C8 witness: the round-trip theorem applied to a concrete valid record
saved into fresh storage. -/
theorem c8_save_load_roundtrip_witness :
    (getUserFromStorage savedSampleStorage).1 = some sampleUser ∧
      (getUserFromStorage savedSampleStorage).2 = savedSampleStorage :=
  c8_save_load_roundtrip sampleUser freshStorage savedSampleStorage rfl rfl

/-! ## IdentityClient (`src/lib/api.ts`)

`fetchRandomUser` is embedded as a pure function of the already-resolved
network interaction: the outcome of the single `fetch` of
`API_CONFIG.RANDOM_USER_URL`, and the outcome of the `testAvatarUrl`
reachability probe of the derived avatar URL. -/

mutual

/-- JavaScript string coercion as performed by a template literal, for the
values reachable here (`undefined` is handled by `jsCoerceOpt`). -/
def jsCoerceVal : JsonVal → List Char
  | .jnull => "null".data
  | .jbool true => "true".data
  | .jbool false => "false".data
  | .jnum n => (toString n).data
  | .jstr s => s
  | .jarr xs => jsCoerceArr xs
  | .jobj _ => "[object Object]".data
termination_by v => sizeOf v

/-- Models `Array.prototype.join(',')` under string coercion (`null` and
`undefined` elements become empty). -/
def jsCoerceArr : List JsonVal → List Char
  | [] => []
  | [.jnull] => []
  | [x] => jsCoerceVal x
  | .jnull :: xs => ',' :: jsCoerceArr xs
  | x :: xs => jsCoerceVal x ++ ',' :: jsCoerceArr xs
termination_by xs => sizeOf xs

end

/-- Coercion of a possibly-`undefined` value. -/
def jsCoerceOpt : Option JsonVal → List Char
  | none => "undefined".data
  | some v => jsCoerceVal v

/-- One hexadecimal digit, uppercase, as produced by `URLSearchParams`. -/
def hexDigitChar (n : Nat) : Char :=
  if n < 10 then Char.ofNat (48 + n) else Char.ofNat (55 + n)

/-- The `application/x-www-form-urlencoded` escaping of one character as done
by `URLSearchParams.toString()`: `*-._` and alphanumerics kept, space to
`+`, anything else percent-encoded (ASCII range; the embedded inputs stay
in it). -/
def urlFormEncodeChar (c : Char) : List Char :=
  if c == ' ' then ['+']
  else if isAsciiDigit c || (65 ≤ c.toNat && c.toNat ≤ 90) ||
      (97 ≤ c.toNat && c.toNat ≤ 122) ||
      c == '*' || c == '-' || c == '.' || c == '_' then [c]
  else '%' :: [hexDigitChar (c.toNat / 16), hexDigitChar (c.toNat % 16)]

def urlFormEncode (s : List Char) : List Char :=
  (s.map urlFormEncodeChar).flatten

/-- Models `URLSearchParams.toString()` on an ordered key/value list. -/
def urlParamsToString (ps : List (List Char × List Char)) : List Char :=
  List.intercalate ['&']
    (ps.map fun p => urlFormEncode p.1 ++ '=' :: urlFormEncode p.2)

def primaryDiceBearUrl : List Char :=
  "https://api.dicebear.com/8.x/avataaars/png".data

def alternativeDiceBearUrl : List Char :=
  "https://api.dicebear.com/8.x/adventurer/png".data

/-- The fixed parameters of `generateHijabAvatars` after the seed. -/
def primaryAvatarParams : List (List Char × List Char) :=
  [("top".data, "hijab".data),
   ("topColor".data, "262e33,65c9ff,f88c49,ff5722,ff9800,ffc107".data),
   ("backgroundColor".data, "f3f4f6".data),
   ("clothingGraphic".data, "none".data),
   ("eyebrows".data, "default".data),
   ("eyes".data, "default".data),
   ("facialHair".data, "none".data),
   ("mouth".data, "default".data),
   ("skinColor".data, "fdbcb4,edb98a,fd9841,f8d25c,f1c27d,ffdbac".data)]

/-- Builds the three sized URLs from a base URL, as both generators do. -/
def avatarSizes (baseUrl : List Char) : JsonVal :=
  .jobj [(keyLarge, .jstr (baseUrl ++ "&size=256".data)),
    (keyMedium, .jstr (baseUrl ++ "&size=128".data)),
    (keyThumbnail, .jstr (baseUrl ++ "&size=64".data))]

/-- Embeds `generateHijabAvatars` from `src/lib/api.ts`: seed is the template
string made of the two names. -/
def generateHijabAvatars (firstName lastName : Option JsonVal) : JsonVal :=
  let fullName := jsCoerceOpt firstName ++ ' ' :: jsCoerceOpt lastName
  avatarSizes (primaryDiceBearUrl ++ '?' ::
    urlParamsToString (("seed".data, fullName) :: primaryAvatarParams))

/-- Embeds `generateAlternativeHijabAvatars` from `src/lib/api.ts`. -/
def generateAlternativeHijabAvatars (firstName lastName : Option JsonVal) :
    JsonVal :=
  let fullName := jsCoerceOpt firstName ++ ' ' :: jsCoerceOpt lastName
  avatarSizes (alternativeDiceBearUrl ++ '?' ::
    urlParamsToString [("seed".data, fullName),
      ("backgroundColor".data, ("f3f4f6").data)])

/-- The error value carried by the `ApiError` class (message, optional
HTTP status). -/
structure ApiErrVal where
  message : List Char
  status : Option Nat
  deriving DecidableEq

/-- The resolved outcome of the single outbound `fetch`:
timeout-abort, transport failure (with or without a `Failed to fetch`
message), or an HTTP response whose body either parses to a JSON value or
makes `response.json()` throw. -/
inductive FetchOutcome where
  | abortTimeout : FetchOutcome
  | transportFail : Bool → FetchOutcome
  | httpResponse : Bool → Nat → Except Unit JsonVal → FetchOutcome

def msgNetworkTimeout : List Char :=
  "Request timed out. Please check your internet connection and try again.".data

def msgNetworkConnection : List Char :=
  "Unable to connect to the server. Please check your internet connection and try again.".data

def msgNoUserData : List Char :=
  "Invalid API response: no user data found".data

def msgMissingFields : List Char :=
  "Invalid user data: missing required fields".data

def msgUnexpected : List Char :=
  "An unexpected error occurred".data

def msgStatusFailed (status : Nat) : List Char :=
  "API request failed with status ".data ++ (toString status).data

/-- The spread `\x7b...user, picture: v\x7d`: spread copy with the `picture` binding
replaced. -/
def jsSetField (j : JsonVal) (k : List Char) (v : JsonVal) : JsonVal :=
  match j with
  | .jobj fields => .jobj ((fields.filter fun p => !(p.1 == k)) ++ [(k, v)])
  | _ => .jobj [(k, v)]

/-- Embeds `fetchRandomUser` from `src/lib/api.ts` as a function of the fetch
outcome and the avatar-probe outcome.  Error classification follows the
source: non-ok HTTP status throws the status `ApiError`; a body that fails
to parse throws a generic error, re-thrown as "An unexpected error
occurred"; a missing/non-array/empty `results` throws the no-user-data
`ApiError`; property access on a `null` record (`data.results` on a null
body, or `user.name` on a null first record) throws a `TypeError`, also
re-thrown as the generic message; a record whose `name`, `email` or
`picture` is falsy throws the missing-fields `ApiError`.  On success the
`picture` field is replaced by the derived avatar URL set (the primary
generator, or the alternative one when the reachability probe failed). -/
def fetchRandomUser (r : FetchOutcome) (probeOk : Bool) :
    Except ApiErrVal JsonVal :=
  match r with
  | .abortTimeout => .error ⟨msgNetworkTimeout, none⟩
  | .transportFail true => .error ⟨msgNetworkConnection, none⟩
  | .transportFail false => .error ⟨msgUnexpected, none⟩
  | .httpResponse ok status body =>
    if !ok then
      .error ⟨msgStatusFailed status, some status⟩
    else
      match body with
      | .error _ => .error ⟨msgUnexpected, none⟩
      | .ok data =>
        match data, jsGet data keyResults with
        | .jnull, _ => .error ⟨msgUnexpected, none⟩
        | _, some (.jarr (user :: _)) =>
          match user with
          | .jnull => .error ⟨msgUnexpected, none⟩
          | _ =>
            if !jsTruthyOpt (jsGet user keyName) ||
                !jsTruthyOpt (jsGet user keyEmail) ||
                !jsTruthyOpt (jsGet user keyPicture) then
              .error ⟨msgMissingFields, none⟩
            else
              let firstName := jsGetOpt (jsGet user keyName) keyFirst
              let lastName := jsGetOpt (jsGet user keyName) keyLast
              let hijabAvatars :=
                if probeOk then
                  generateHijabAvatars firstName lastName
                else
                  generateAlternativeHijabAvatars firstName lastName
              .ok (jsSetField user keyPicture hijabAvatars)
        | _, _ => .error ⟨msgNoUserData, none⟩

/-- Whether `fetchRandomUser` resolved successfully with a record that
violates the UserRecord invariant. -/
def fetchSucceedsWithInvalidRecord (r : Except ApiErrVal JsonVal) : Bool :=
  match r with
  | .ok u => !isValidUserRecord u
  | .error _ => false

/-- A 200 response whose single record passes the shallow truthiness check
while violating the six-leaf invariant. -/
def invalidUserResponse : FetchOutcome :=
  .httpResponse true 200 (.ok (.jobj [(keyResults, .jarr [partialUser])]))

/-- The six picture leaves of a record are present and string-typed. -/
def pictureLeavesAreStrings (j : JsonVal) : Bool :=
  isStringVal (jsGetOpt (jsGet j keyPicture) keyLarge) &&
    isStringVal (jsGetOpt (jsGet j keyPicture) keyMedium) &&
    isStringVal (jsGetOpt (jsGet j keyPicture) keyThumbnail)

theorem lookup_set_same (l : List (List Char × JsonVal)) (k : List Char)
    (v : JsonVal) :
    List.lookup k ((l.filter fun p => !(p.1 == k)) ++ [(k, v)]) = some v := by
  induction l with
  | nil => simp [List.lookup]
  | cons p t ih =>
    by_cases h : p.1 = k
    · simpa [List.filter, h] using ih
    · have hb : (p.1 == k) = false := by simpa using h
      have hb2 : (k == p.1) = false := by
        simpa using fun he => h he.symm
      simpa [List.filter, hb, List.lookup, hb2] using ih

theorem lookup_set_other (l : List (List Char × JsonVal)) (k k' : List Char)
    (v : JsonVal) (hne : k' ≠ k) :
    List.lookup k' ((l.filter fun p => !(p.1 == k)) ++ [(k, v)]) =
      List.lookup k' l := by
  have hne' : (k' == k) = false := by simpa using hne
  induction l with
  | nil => simp [List.lookup, hne']
  | cons p t ih =>
    by_cases h : p.1 = k
    · have hb : (p.1 == k) = true := by simpa using h
      have hb2 : (k' == p.1) = false := by
        simpa using fun he => hne (he.trans h)
      simpa [List.filter, hb, List.lookup, hb2] using ih
    · have hb : (p.1 == k) = false := by simpa using h
      by_cases h2 : k' = p.1
      · simp [List.filter, hb, List.lookup, h2]
      · have hb2 : (k' == p.1) = false := by simpa using h2
        simpa [List.filter, hb, List.lookup, hb2] using ih

theorem jsGet_some_imp_jobj {u : JsonVal} {k : List Char} {v : JsonVal}
    (h : jsGet u k = some v) : ∃ fields, u = .jobj fields := by
  cases u with
  | jobj fields => exact ⟨fields, rfl⟩
  | jnull => exact Option.noConfusion h
  | jbool b => exact Option.noConfusion h
  | jnum n => exact Option.noConfusion h
  | jstr s => exact Option.noConfusion h
  | jarr xs => exact Option.noConfusion h

theorem jsTruthyOpt_some {o : Option JsonVal} (h : jsTruthyOpt o = true) :
    ∃ v, o = some v := by
  cases o with
  | none => simp [jsTruthyOpt] at h
  | some v => exact ⟨v, rfl⟩

/-- The three sized URLs built by either generator are strings. -/
theorem avatarSizes_leaves (b : List Char) :
    isStringVal (jsGet (avatarSizes b) keyLarge) = true ∧
      isStringVal (jsGet (avatarSizes b) keyMedium) = true ∧
      isStringVal (jsGet (avatarSizes b) keyThumbnail) = true :=
  ⟨rfl, rfl, rfl⟩

theorem fetch_missing_cond {u : JsonVal}
    (h : requiredFieldsTruthy u = false) :
    (!jsTruthyOpt (jsGet u keyName) || !jsTruthyOpt (jsGet u keyEmail) ||
        !jsTruthyOpt (jsGet u keyPicture)) = true := by
  cases hA : jsTruthyOpt (jsGet u keyName) with
  | false => simp [hA]
  | true =>
    cases hB : jsTruthyOpt (jsGet u keyEmail) with
    | false => simp [hB]
    | true =>
      cases hC : jsTruthyOpt (jsGet u keyPicture) with
      | false => simp [hC]
      | true =>
        exfalso
        obtain ⟨v, hv⟩ := jsTruthyOpt_some hA
        obtain ⟨fields, rfl⟩ := jsGet_some_imp_jobj hv
        simp [requiredFieldsTruthy, jsTruthy, hA, hB, hC] at h

/-- C9 (counterexample): a 200 response whose first record has truthy but
leaf-less `name` and `picture` violates the UserRecord invariant, yet
`fetchRandomUser` resolves successfully with it instead of failing with
the "missing required fields" `ApiError` — the claim is false for records
that fail the invariant only at leaf level. -/
theorem c9_counterexample :
    isValidUserRecord partialUser = false ∧
      fetchSucceedsWithInvalidRecord
        (fetchRandomUser invalidUserResponse true) = true :=
  ⟨rfl, rfl⟩

/-- C9 (amended): on a successful transport with first record `u`,
`fetchRandomUser` fails with the Api-kind message
`"Invalid user data: missing required fields"` exactly when `u.name`,
`u.email` or `u.picture` is falsy (a `null` record instead raises a
`TypeError`, surfaced as the generic "An unexpected error occurred");
a record passing that shallow check is returned as a success with its
`picture` replaced by derived string URLs — so the success record always
has string picture leaves, but its `name`/`email` leaves are passed
through unchecked and may still violate the invariant. -/
theorem c9_fetch_shallow_check (u : JsonVal) (rest : List JsonVal)
    (probeOk : Bool) :
    (u = .jnull →
      fetchRandomUser
          (.httpResponse true 200 (.ok (.jobj [(keyResults,
            .jarr (u :: rest))]))) probeOk = .error ⟨msgUnexpected, none⟩) ∧
    (u ≠ .jnull → requiredFieldsTruthy u = false →
      fetchRandomUser
          (.httpResponse true 200 (.ok (.jobj [(keyResults,
            .jarr (u :: rest))]))) probeOk = .error ⟨msgMissingFields, none⟩) ∧
    (requiredFieldsTruthy u = true →
      ∃ pic,
        fetchRandomUser
            (.httpResponse true 200 (.ok (.jobj [(keyResults,
              .jarr (u :: rest))]))) probeOk =
          .ok (jsSetField u keyPicture pic) ∧
        pictureLeavesAreStrings (jsSetField u keyPicture pic) = true ∧
        jsGet (jsSetField u keyPicture pic) keyName = jsGet u keyName ∧
        jsGet (jsSetField u keyPicture pic) keyEmail = jsGet u keyEmail) := by
  refine ⟨?_, ?_, ?_⟩
  · rintro rfl
    rfl
  · intro hnull hreq
    have hcond := fetch_missing_cond hreq
    cases u with
    | jnull => exact absurd rfl hnull
    | jbool b => rfl
    | jnum n => rfl
    | jstr s => rfl
    | jarr xs => rfl
    | jobj fields =>
      have hres : jsGet (JsonVal.jobj [(keyResults,
          JsonVal.jarr (JsonVal.jobj fields :: rest))]) keyResults
          = some (JsonVal.jarr (JsonVal.jobj fields :: rest)) := rfl
      cases hA : jsTruthyOpt (jsGet (JsonVal.jobj fields) keyName) with
      | false => simp [fetchRandomUser, hres, hA]
      | true =>
        cases hB : jsTruthyOpt (jsGet (JsonVal.jobj fields) keyEmail) with
        | false => simp [fetchRandomUser, hres, hA, hB]
        | true =>
          cases hC : jsTruthyOpt (jsGet (JsonVal.jobj fields) keyPicture) with
          | false => simp [fetchRandomUser, hres, hA, hB, hC]
          | true =>
            rw [hA, hB, hC] at hcond
            simp at hcond
  · intro hreq
    have hparts : jsTruthy u = true ∧ jsTruthyOpt (jsGet u keyName) = true ∧
        jsTruthyOpt (jsGet u keyEmail) = true ∧
        jsTruthyOpt (jsGet u keyPicture) = true := by
      simpa [requiredFieldsTruthy, and_assoc] using hreq
    obtain ⟨-, hA, hB, hC⟩ := hparts
    obtain ⟨v, hv⟩ := jsTruthyOpt_some hA
    obtain ⟨fields, rfl⟩ := jsGet_some_imp_jobj hv
    refine ⟨if probeOk then
        generateHijabAvatars
          (jsGetOpt (jsGet (JsonVal.jobj fields) keyName) keyFirst)
          (jsGetOpt (jsGet (JsonVal.jobj fields) keyName) keyLast)
      else
        generateAlternativeHijabAvatars
          (jsGetOpt (jsGet (JsonVal.jobj fields) keyName) keyFirst)
          (jsGetOpt (jsGet (JsonVal.jobj fields) keyName) keyLast),
      ?_, ?_, ?_, ?_⟩
    · have hres : jsGet (JsonVal.jobj [(keyResults,
          JsonVal.jarr (JsonVal.jobj fields :: rest))]) keyResults
          = some (JsonVal.jarr (JsonVal.jobj fields :: rest)) := rfl
      simp [fetchRandomUser, hres, hA, hB, hC]
    · have hpic : ∀ pic, jsGet (jsSetField (JsonVal.jobj fields) keyPicture pic)
          keyPicture = some pic := by
        intro pic
        simp only [jsSetField, jsGet]
        exact lookup_set_same fields keyPicture pic
      simp only [pictureLeavesAreStrings]
      rw [hpic]
      cases probeOk <;> rfl
    · simp only [jsSetField, jsGet]
      exact lookup_set_other fields keyPicture keyName _ (by decide)
    · simp only [jsSetField, jsGet]
      exact lookup_set_other fields keyPicture keyEmail _ (by decide)

/-- C9 witness: the amended theorem's success branch applied to the
concrete leaf-invalid record, showing it is returned as a success. -/
theorem c9_fetch_shallow_check_witness :
    requiredFieldsTruthy partialUser = true ∧
      (∃ pic,
        fetchRandomUser invalidUserResponse true =
          .ok (jsSetField partialUser keyPicture pic) ∧
        pictureLeavesAreStrings (jsSetField partialUser keyPicture pic) = true ∧
        jsGet (jsSetField partialUser keyPicture pic) keyName
          = jsGet partialUser keyName ∧
        jsGet (jsSetField partialUser keyPicture pic) keyEmail
          = jsGet partialUser keyEmail) :=
  ⟨rfl, (c9_fetch_shallow_check partialUser [] true).2.2 rfl⟩

/-! ## LoginController (`src/components/login-form.tsx`)

The component state is the five `useState` cells.  A handler run is a
function from the snapshot state (the closures read the render-time values,
so the `retryCount` read in the `catch` block is the value from before the
run's own `clearError()`) to the post-run state: each `setX(v)` writes an
absolute value, so the last write per cell wins and unwritten cells keep
their snapshot value. -/

inductive ErrorType where
  | validation : ErrorType
  | network : ErrorType
  | api : ErrorType
  | storage : ErrorType
  | redirect : ErrorType
  | general : ErrorType
  deriving DecidableEq

/-- The `ErrorState` interface of `login-form.tsx`. -/
structure ErrorState where
  message : List Char
  type : ErrorType
  retryable : Bool
  deriving DecidableEq

/-- The five `useState` cells of `LoginForm`. -/
structure FormState where
  phoneNumber : List Char
  error : Option ErrorState
  isLoading : Bool
  isRedirecting : Bool
  retryCount : Nat
  deriving DecidableEq

/-- The value thrown by `fetchRandomUser` as seen by `handleSubmit`'s
`catch`: whether it is an `ApiError` instance, its message, its optional
status. -/
structure FetchErr where
  isApiError : Bool
  message : List Char
  status : Option Nat
  deriving DecidableEq

/-- The environment outcome of one submission run: the fetch rejects, or
the fetch resolves and `saveUserToStorage` throws, or save succeeds and
`router.push` throws, or everything succeeds. -/
inductive SubmitOutcome where
  | fetchFail : FetchErr → SubmitOutcome
  | saveFail : SubmitOutcome
  | redirectFail : SubmitOutcome
  | success : SubmitOutcome
  deriving DecidableEq

def msgPhoneRequired : List Char :=
  "Mobile number is required. Please enter your Iranian mobile number.".data

def msgPhoneInvalid : List Char :=
  "Please enter a valid Iranian mobile number. Accepted formats: 09xxxxxxxxx, +989xxxxxxxxx, or 00989xxxxxxxxx".data

def msgServerUnavailable : List Char :=
  "Server is temporarily unavailable. Please try again in a few moments.".data

def msgBadRequest : List Char :=
  "There was a problem with your request. Please try again.".data

def msgUnexpectedUi : List Char :=
  "An unexpected error occurred. Please try again or contact support if the problem persists.".data

def msgStorageSaveUi : List Char :=
  "Unable to save login information. Please check your browser settings and try again.".data

def msgRedirectUi : List Char :=
  "Login successful but unable to redirect. Please refresh the page.".data

/-- JavaScript `hay.includes(needle)`. -/
def jsIncludes (hay needle : List Char) : Bool :=
  match hay with
  | [] => needle.isEmpty
  | _ :: t => listStartsWith hay needle || jsIncludes t needle

def needleTimeout : List Char := "timeout".data

def needleNetworkError : List Char := "Network error".data

/-- The test `err.status && err.status >= n`: the status is truthy (present and
non-zero) and at least `n`. -/
def statusAtLeast : Option Nat → Nat → Bool
  | some s, n => s != 0 && n ≤ s
  | none, _ => false

/-- The error classification in `handleSubmit`'s `catch` block
(`login-form.tsx` lines 119–154).  Every branch sets `retryable := true`. -/
def classifyFetchError (e : FetchErr) : ErrorState :=
  if e.isApiError then
    if jsIncludes e.message needleTimeout then
      ⟨msgNetworkTimeout, .network, true⟩
    else if jsIncludes e.message needleNetworkError then
      ⟨msgNetworkConnection, .network, true⟩
    else if statusAtLeast e.status 500 then
      ⟨msgServerUnavailable, .api, true⟩
    else if statusAtLeast e.status 400 then
      ⟨msgBadRequest, .api, true⟩
    else
      ⟨e.message, .api, true⟩
  else
    ⟨msgUnexpectedUi, .general, true⟩

/-- One run of `handleSubmit` (`login-form.tsx` lines 72–158) as a function
of the snapshot state and the environment outcome.  `clearError()` first
writes `error := none, retryCount := 0`; a validation failure overwrites
`error` and returns before `setIsLoading(true)`; otherwise the `catch`
block overwrites `retryCount` with the *snapshot* count plus one (the
closure variable is the render-time value, not the cleared cell), while the
storage/redirect failure paths and the success path leave the cleared
`retryCount := 0` in place. -/
def runSubmit (snap : FormState) (out : SubmitOutcome) : FormState :=
  if jsTrim snap.phoneNumber = [] then
    { snap with
        error := some ⟨msgPhoneRequired, .validation, false⟩,
        retryCount := 0 }
  else if !validateIranianPhone snap.phoneNumber then
    { snap with
        error := some ⟨msgPhoneInvalid, .validation, false⟩,
        retryCount := 0 }
  else
    match out with
    | .fetchFail e =>
        { snap with
            error := some (classifyFetchError e),
            retryCount := snap.retryCount + 1,
            isLoading := false }
    | .saveFail =>
        { snap with
            error := some ⟨msgStorageSaveUi, .storage, true⟩,
            retryCount := 0,
            isLoading := false }
    | .redirectFail =>
        { snap with
            error := some ⟨msgRedirectUi, .redirect, true⟩,
            retryCount := 0,
            isLoading := false,
            isRedirecting := false }
    | .success =>
        { snap with
            error := none,
            retryCount := 0,
            isLoading := false,
            isRedirecting := true }

/-- Truthiness of `error?.retryable` on the snapshot. -/
def errRetryable (s : FormState) : Bool :=
  match s.error with
  | some e => e.retryable
  | none => false

/-- Embeds `handleRetry` (`login-form.tsx` lines 65–70): when the presented error
is retryable it clears the error state and re-runs `handleSubmit`; the
clearing writes are overwritten by the submit run, which reads only the
snapshot. -/
def handleRetry (snap : FormState) (out : SubmitOutcome) : FormState :=
  if errRetryable snap then runSubmit snap out else snap

/-- Embeds `handlePhoneChange` (`login-form.tsx` lines 38–46): store the new
input; if an error is presented, `clearError()` also resets the retry
counter. -/
def handlePhoneChange (snap : FormState) (value : List Char) : FormState :=
  if snap.error.isSome then
    { snap with
        phoneNumber := value,
        error := none,
        retryCount := 0 }
  else
    { snap with phoneNumber := value }

/-- The render condition of the "Try Again" button
(`login-form.tsx` line 299): `error?.retryable && retryCount < 3`. -/
def retryOffered (s : FormState) : Bool :=
  errRetryable s && decide (s.retryCount < 3)

/-- The render condition of the full-reset block
(`login-form.tsx` line 313): `retryCount >= 3 && error?.retryable`. -/
def resetOffered (s : FormState) : Bool :=
  decide (3 ≤ s.retryCount) && errRetryable s

/-! ### LoginController lemmas -/

theorem validate_trim_ne {x : List Char}
    (h : validateIranianPhone x = true) : ¬ jsTrim x = [] := by
  intro hc
  rcases (validate_iff x).mp h with hm | hm | hm <;>
  · rw [hc] at hm
    simp [matchStandard, matchInternational, matchCountryCode] at hm

theorem classify_retryable (e : FetchErr) :
    (classifyFetchError e).retryable = true := by
  unfold classifyFetchError
  split
  · split
    · rfl
    · split
      · rfl
      · split
        · rfl
        · split
          · rfl
          · rfl
  · rfl

theorem handleRetry_of_retryable {s : FormState} (out : SubmitOutcome)
    (h : errRetryable s = true) : handleRetry s out = runSubmit s out :=
  if_pos h

theorem runSubmit_fetchFail (snap : FormState) (e : FetchErr)
    (hv : validateIranianPhone snap.phoneNumber = true) :
    runSubmit snap (.fetchFail e) = { snap with
      error := some (classifyFetchError e),
      retryCount := snap.retryCount + 1,
      isLoading := false } := by
  simp [runSubmit, validate_trim_ne hv, hv]

/-! ### Concrete traces -/

def validPhone : List Char := "09123456789".data

def startState : FormState := ⟨validPhone, none, false, false, 0⟩

/-- Trace of three consecutive storage failures: a fresh submission and two
retries, the fetch succeeding each time and `saveUserToStorage` throwing. -/
def stormFail1 : FormState := runSubmit startState .saveFail

def stormFail2 : FormState := handleRetry stormFail1 .saveFail

def stormFail3 : FormState := handleRetry stormFail2 .saveFail

/-- A thrown value that is not an `ApiError` instance. -/
def fetchErrNet : FetchErr := ⟨false, needleNetworkError, none⟩

/-- The `ApiError` thrown on an HTTP 500 response. -/
def fetchErrServer : FetchErr := ⟨true, msgStatusFailed 500, some 500⟩

/-- Trace for the counter decrease: two fetch failures, then a retry whose
fetch succeeds but whose save throws. -/
def cxState1 : FormState := runSubmit startState (.fetchFail fetchErrServer)

def cxState2 : FormState := handleRetry cxState1 (.fetchFail fetchErrServer)

def cxState3 : FormState := handleRetry cxState2 .saveFail

/-- C1 (counterexample): three consecutive retryable failures from the
same submission lineage — a fresh submission and two retries, each failing
in `saveUserToStorage` — leave the retry counter at 0, because the storage
failure path returns before the `catch` block that increments it; the
controller still offers the retry action and does not offer the full
reset, contradicting the claim for storage-kind retryable failures. -/
theorem c1_counterexample :
    errRetryable stormFail1 = true ∧ errRetryable stormFail2 = true ∧
      errRetryable stormFail3 = true ∧ stormFail3.retryCount = 0 ∧
      retryOffered stormFail3 = true ∧ resetOffered stormFail3 = false := by
  decide

/-- C1 (amended): for failures thrown by the fetch (network/api/general
kinds) the budget does hold — a fresh submission and two retries that all
fail in the fetch drive the counter to 3, after which the retry action is
no longer offered and only the full reset is. -/
theorem c1_fetch_retry_budget (s0 : FormState) (e1 e2 e3 : FetchErr)
    (h0 : s0.retryCount = 0)
    (hv : validateIranianPhone s0.phoneNumber = true) :
    retryOffered (runSubmit s0 (.fetchFail e1)) = true ∧
      retryOffered (handleRetry (runSubmit s0 (.fetchFail e1))
        (.fetchFail e2)) = true ∧
      (handleRetry (handleRetry (runSubmit s0 (.fetchFail e1))
        (.fetchFail e2)) (.fetchFail e3)).retryCount = 3 ∧
      retryOffered (handleRetry (handleRetry (runSubmit s0 (.fetchFail e1))
        (.fetchFail e2)) (.fetchFail e3)) = false ∧
      resetOffered (handleRetry (handleRetry (runSubmit s0 (.fetchFail e1))
        (.fetchFail e2)) (.fetchFail e3)) = true := by
  have h1 := runSubmit_fetchFail s0 e1 hv
  have hr1 : errRetryable (runSubmit s0 (.fetchFail e1)) = true := by
    rw [h1]; simp [errRetryable, classify_retryable]
  have hv1 : validateIranianPhone
      (runSubmit s0 (.fetchFail e1)).phoneNumber = true := by
    rw [h1]; exact hv
  have hc1 : (runSubmit s0 (.fetchFail e1)).retryCount = 1 := by
    rw [h1]; simp [h0]
  have h2eq : handleRetry (runSubmit s0 (.fetchFail e1)) (.fetchFail e2)
      = runSubmit (runSubmit s0 (.fetchFail e1)) (.fetchFail e2) :=
    handleRetry_of_retryable _ hr1
  have h2 := runSubmit_fetchFail (runSubmit s0 (.fetchFail e1)) e2 hv1
  have hr2 : errRetryable (handleRetry (runSubmit s0 (.fetchFail e1))
      (.fetchFail e2)) = true := by
    rw [h2eq, h2]; simp [errRetryable, classify_retryable]
  have hv2 : validateIranianPhone (handleRetry (runSubmit s0 (.fetchFail e1))
      (.fetchFail e2)).phoneNumber = true := by
    rw [h2eq, h2]; exact hv1
  have hc2 : (handleRetry (runSubmit s0 (.fetchFail e1))
      (.fetchFail e2)).retryCount = 2 := by
    rw [h2eq, h2]; simp [hc1]
  have h3eq : handleRetry (handleRetry (runSubmit s0 (.fetchFail e1))
      (.fetchFail e2)) (.fetchFail e3)
      = runSubmit (handleRetry (runSubmit s0 (.fetchFail e1))
        (.fetchFail e2)) (.fetchFail e3) :=
    handleRetry_of_retryable _ hr2
  have h3 := runSubmit_fetchFail (handleRetry (runSubmit s0 (.fetchFail e1))
    (.fetchFail e2)) e3 hv2
  have hr3 : errRetryable (handleRetry (handleRetry (runSubmit s0
      (.fetchFail e1)) (.fetchFail e2)) (.fetchFail e3)) = true := by
    rw [h3eq, h3]; simp [errRetryable, classify_retryable]
  have hc3 : (handleRetry (handleRetry (runSubmit s0 (.fetchFail e1))
      (.fetchFail e2)) (.fetchFail e3)).retryCount = 3 := by
    rw [h3eq, h3]; simp [hc2]
  refine ⟨?_, ?_, hc3, ?_, ?_⟩
  · simp [retryOffered, hr1, hc1]
  · simp [retryOffered, hr2, hc2]
  · simp [retryOffered, hr3, hc3]
  · simp [resetOffered, hr3, hc3]

/-- C1 witness: the amended budget theorem on a concrete trace of three
non-`ApiError` fetch failures. -/
theorem c1_fetch_retry_budget_witness :
    (handleRetry (handleRetry (runSubmit startState (.fetchFail fetchErrNet))
      (.fetchFail fetchErrNet)) (.fetchFail fetchErrNet)).retryCount = 3 ∧
      retryOffered (handleRetry (handleRetry (runSubmit startState
        (.fetchFail fetchErrNet)) (.fetchFail fetchErrNet))
        (.fetchFail fetchErrNet)) = false ∧
      resetOffered (handleRetry (handleRetry (runSubmit startState
        (.fetchFail fetchErrNet)) (.fetchFail fetchErrNet))
        (.fetchFail fetchErrNet)) = true :=
  ⟨(c1_fetch_retry_budget startState fetchErrNet fetchErrNet fetchErrNet rfl
      (by decide)).2.2.1,
    (c1_fetch_retry_budget startState fetchErrNet fetchErrNet fetchErrNet rfl
      (by decide)).2.2.2.1,
    (c1_fetch_retry_budget startState fetchErrNet fetchErrNet fetchErrNet rfl
      (by decide)).2.2.2.2⟩

/-- C2 (counterexample): a reachable trace in which the retry counter
decreases across a retry transition with no fresh submission in between —
after two fetch failures the counter is 2, and a retry whose fetch succeeds
but whose save throws ends with the counter reset to 0 (the retry's own
`clearError()` zeroes it and the storage path never restores it),
contradicting both "never reset on retry" and monotonicity. -/
theorem c2_counterexample :
    cxState2.retryCount = 2 ∧ errRetryable cxState2 = true ∧
      cxState3.retryCount = 0 := by
  decide

/-- C2 (amended): for a submission over a valid phone number, the counter
after the run is the snapshot counter plus one when the fetch failed, and 0
in every other case (success, storage failure, redirect failure) — on both
a fresh submission and a retry.  So the counter is zeroed at the start of
every submission, retries included, and only the fetch-failure `catch`
block restores it to snapshot + 1 through its stale closure read. -/
theorem c2_retry_counter (snap : FormState) (out : SubmitOutcome)
    (hv : validateIranianPhone snap.phoneNumber = true) :
    (runSubmit snap out).retryCount =
      (match out with
        | .fetchFail _ => snap.retryCount + 1
        | _ => 0) ∧
    (errRetryable snap = true →
      (handleRetry snap out).retryCount =
        (match out with
          | .fetchFail _ => snap.retryCount + 1
          | _ => 0)) := by
  have key : (runSubmit snap out).retryCount =
      (match out with
        | .fetchFail _ => snap.retryCount + 1
        | _ => 0) := by
    cases out <;> simp [runSubmit, validate_trim_ne hv, hv]
  refine ⟨key, fun hr => ?_⟩
  rw [handleRetry_of_retryable out hr]
  exact key

/-- C2 witness: the amended counter law on the concrete decreasing trace. -/
theorem c2_retry_counter_witness :
    errRetryable cxState2 = true ∧
      (handleRetry cxState2 SubmitOutcome.saveFail).retryCount = 0 :=
  ⟨by decide,
    (c2_retry_counter cxState2 .saveFail (by decide)).2 (by decide)⟩

/-- C10: while an error is presented, any change of the phone input stores
the new value, clears the error and resets the retry counter to 0 — a
single keystroke between retries restores the full retry budget. -/
theorem c10_phone_change_resets (s : FormState) (v : List Char)
    (h : s.error.isSome = true) :
    (handlePhoneChange s v).phoneNumber = v ∧
      (handlePhoneChange s v).error = none ∧
      (handlePhoneChange s v).retryCount = 0 := by
  simp [handlePhoneChange, h]

/-- C10 witness: a keystroke on the state presented after a fetch
failure. -/
theorem c10_phone_change_resets_witness :
    (handlePhoneChange cxState1 validPhone).phoneNumber = validPhone ∧
      (handlePhoneChange cxState1 validPhone).error = none ∧
      (handlePhoneChange cxState1 validPhone).retryCount = 0 :=
  c10_phone_change_resets cxState1 validPhone (by decide)

end LoginPage
